import Mathlib

/-!
Verification of the lifecycle behaviour of the two wrapper classes in
sasm.h (namespace sasm): class Semaphore and class Shared_Memory.

The embedding models the POSIX (descriptor-style) backend branch of the
header. Every OS primitive the code calls (sem_open, sem_post, sem_close,
sem_unlink, sem_wait, sem_timedwait, shm_open, ftruncate, mmap, munmap,
close, shm_unlink) is represented by an oracle argument giving its outcome,
and each wrapper operation additionally returns the list of OS calls it
issued, in order, so that claims about call order and about "no OS call is
made" can be stated.
-/

namespace Sasm

/-- Values of the C field `sem_t* object` of class Semaphore: the null
pointer (the Unopened sentinel and the value the default constructor
gives), the distinguished error value SEM_FAILED returned by a failed
sem_open, or a pointer to a real semaphore object (identified by a tag). -/
inductive SemPtr where
  | null
  | semFailed
  | valid (id : Nat)
deriving DecidableEq, Repr

/-- True exactly on pointers to a real semaphore object, i.e. neither the
null sentinel nor SEM_FAILED. -/
def SemPtr.isValid : SemPtr → Bool
  | SemPtr.valid _ => true
  | _ => false

/-- A `struct timespec`: seconds and nanoseconds fields, modelled as
unbounded integers (time_t and long). -/
structure Timespec where
  tv_sec : Int
  tv_nsec : Int
deriving DecidableEq, Repr

/-- One OS call issued by a wrapper operation, recorded in order. -/
inductive OsCall where
  | sem_open (name : String) (initial : Int)
  | sem_post (h : SemPtr)
  | sem_close (h : SemPtr)
  | sem_unlink (name : String)
  | sem_wait (h : SemPtr)
  | sem_timedwait (h : SemPtr) (deadline : Timespec)
  | shm_open (name : String)
  | ftruncate (fd : Int) (size : Nat)
  | fd_close (fd : Int)
  | shm_unlink (name : String)
  | mmap (fd : Int) (size : Nat)
  | munmap (size : Nat)
deriving DecidableEq, Repr

/-- The state of a `sasm::Semaphore` object: its two data members. -/
structure Semaphore where
  name : String
  object : SemPtr
deriving DecidableEq, Repr

/-- The state produced by the default constructor `Semaphore() {}`:
`name` empty, `object` null. This is the Unopened state. -/
def Semaphore.unopened : Semaphore := { name := "", object := SemPtr.null }

/-- The constant `static constexpr int max_count{ 1024 }`. -/
def Semaphore.max_count : Int := 1024

/-- Getter `Semaphore::get_name`. -/
def Semaphore.get_name (s : Semaphore) : String := s.name

/-- Getter `Semaphore::get_object`. -/
def Semaphore.get_object (s : Semaphore) : SemPtr := s.object

/-- Outcome of the sem_open call inside `Semaphore::create`: either a
pointer to a real semaphore object or SEM_FAILED. -/
inductive SemOpenResult where
  | ok (id : Nat)
  | failed
deriving DecidableEq, Repr

/-- The loop body of the POSIX branch of `Semaphore::increment`:
`for (int i = 0; i < count; ++i) if (sem_post(...) != 0) success = false;`.
`f i` gives the outcome of the i-th sem_post (true = returned 0); the
accumulator `b` is the running `success` flag. Returns the final flag and
the trace of sem_post calls issued. -/
def post_run (obj : SemPtr) (f : Nat → Bool) : Nat → Nat → Bool → Bool × List OsCall
  | _, 0, b => (b, [])
  | i, r + 1, b =>
    let step := post_run obj f (i + 1) r (b && f i)
    (step.1, OsCall.sem_post obj :: step.2)

/-- `Semaphore::increment(count)` (POSIX branch): fails immediately when
`object` is null; otherwise issues one sem_post per loop iteration
(`count` iterations when `count > 0`, none otherwise) and returns true
iff every sem_post returned 0. The object state is not modified (the
method is const). -/
def Semaphore.increment (s : Semaphore) (count : Int) (f : Nat → Bool) :
    Bool × List OsCall :=
  if s.object = SemPtr.null then (false, [])
  else post_run s.object f 0 count.toNat true

/-- The sentinel INFINITE, `(unsigned int)-1`. -/
def INFINITE : Nat := 4294967295

/-- The absolute deadline computed by the POSIX branch of
`Semaphore::wait` for a finite timeout: read CLOCK_REALTIME into `ts`,
then `ts.tv_sec += timeout_ms / 1000; ts.tv_nsec += (timeout_ms % 1000) *
1000000;` followed by a single conditional carry when `tv_nsec`
reaches 1000000000. -/
def wait_deadline (now : Timespec) (timeout_ms : Nat) : Timespec :=
  let t1 : Timespec :=
    { tv_sec := now.tv_sec + ((timeout_ms / 1000 : Nat) : Int),
      tv_nsec := now.tv_nsec + (((timeout_ms % 1000) * 1000000 : Nat) : Int) }
  if 1000000000 ≤ t1.tv_nsec then
    { tv_sec := t1.tv_sec + 1, tv_nsec := t1.tv_nsec - 1000000000 }
  else t1

/-- `Semaphore::wait(timeout_ms)` (POSIX branch): returns false when
`object` is null; with the INFINITE sentinel it calls sem_wait; otherwise
it computes the absolute deadline from the current CLOCK_REALTIME reading
`now` and calls sem_timedwait with it. `os_ok` is the oracle for whether
the blocking call returned 0. The object state is not modified. -/
def Semaphore.wait (s : Semaphore) (timeout_ms : Nat) (now : Timespec)
    (os_ok : Bool) : Bool × List OsCall :=
  if s.object = SemPtr.null then (false, [])
  else if timeout_ms = INFINITE then (os_ok, [OsCall.sem_wait s.object])
  else (os_ok, [OsCall.sem_timedwait s.object (wait_deadline now timeout_ms)])

/-- `Semaphore::create(name, initial_count)` (POSIX branch): rejects an
empty name before any OS call; otherwise assigns `this->name = name`,
calls sem_open and stores its result in `object`, and returns
`object != SEM_FAILED`. -/
def Semaphore.create (s : Semaphore) (n : String) (initial : Int)
    (os : SemOpenResult) : Semaphore × Bool × List OsCall :=
  if n = "" then (s, false, [])
  else
    let obj : SemPtr :=
      match os with
      | SemOpenResult.ok id => SemPtr.valid id
      | SemOpenResult.failed => SemPtr.semFailed
    ({ s with name := n, object := obj },
      decide (obj ≠ SemPtr.semFailed), [OsCall.sem_open n initial])

/-- `Semaphore::close` (POSIX branch): returns at once when `object` is
null; otherwise calls `increment(max_count)` ignoring its result, then
sem_close, then (name being non-empty) sem_unlink, and finally clears
both members. `f` is the oracle for the sem_post outcomes inside the
increment call; all OS return values are ignored. -/
def Semaphore.close (s : Semaphore) (f : Nat → Bool) :
    Semaphore × List OsCall :=
  if s.object = SemPtr.null then (s, [])
  else
    let drain := s.increment Semaphore.max_count f
    let unlink := if s.name = "" then [] else [OsCall.sem_unlink s.name]
    ({ name := "", object := SemPtr.null },
      drain.2 ++ [OsCall.sem_close s.object] ++ unlink)

/-- The state of a `sasm::Shared_Memory` object: its four data members
(POSIX branch: `file_mapping` is an int with sentinel -1; `address` is a
pointer with null sentinel, modelled as `Option Nat`). -/
structure Shared_Memory where
  name : String
  size : Nat
  address : Option Nat
  file_mapping : Int
deriving DecidableEq, Repr

/-- The state produced by the default constructor `Shared_Memory() {}`:
all members at their in-class initialisers. This is the Unopened state. -/
def Shared_Memory.unopened : Shared_Memory :=
  { name := "", size := 0, address := none, file_mapping := -1 }

/-- Getter `Shared_Memory::get_name`. -/
def Shared_Memory.get_name (m : Shared_Memory) : String := m.name

/-- Getter `Shared_Memory::get_size`. -/
def Shared_Memory.get_size (m : Shared_Memory) : Nat := m.size

/-- Getter `Shared_Memory::get_address`. -/
def Shared_Memory.get_address (m : Shared_Memory) : Option Nat := m.address

/-- Getter `Shared_Memory::get_file_mapping`. -/
def Shared_Memory.get_file_mapping (m : Shared_Memory) : Int := m.file_mapping

/-- Outcome of the shm_open call inside `Shared_Memory::create`: a
non-negative file descriptor, or -1. -/
inductive ShmOpenResult where
  | ok (fd : Nat)
  | failed
deriving DecidableEq, Repr

/-- `Shared_Memory::map` (POSIX branch): guards on the sentinel value of
`file_mapping` (the source compares `file_mapping == nullptr`, which on
this branch can only mean the sentinel check) and on `size == 0`,
returning null without touching the OS; otherwise calls mmap.
`mm` is the mmap oracle: `some a` is a mapped address, `none` is
MAP_FAILED, in which case the file descriptor is closed, `file_mapping`
is reset to -1 and null is returned. Returns (address, new state, trace);
note that `map` itself never writes `address` — its caller does. -/
def Shared_Memory.map (m : Shared_Memory) (mm : Option Nat) :
    Option Nat × Shared_Memory × List OsCall :=
  if m.file_mapping = -1 then (none, m, [])
  else if m.size = 0 then (none, m, [])
  else
    match mm with
    | some a => (some a, m, [OsCall.mmap m.file_mapping m.size])
    | none =>
      (none, { m with file_mapping := -1 },
        [OsCall.mmap m.file_mapping m.size, OsCall.fd_close m.file_mapping])

/-- `Shared_Memory::create(name, size)` (POSIX branch): rejects an empty
name or a zero size before any OS call; otherwise assigns `name` and
`size`, calls shm_open (failure returns false with `file_mapping` still
unassigned), ftruncate (failure closes and unlinks the new descriptor and
returns false, again before `file_mapping` is assigned), then stores the
descriptor, assigns `address = map()` and returns `address != nullptr`. -/
def Shared_Memory.create (m : Shared_Memory) (n : String) (sz : Nat)
    (shm : ShmOpenResult) (ftruncate_ok : Bool) (mm : Option Nat) :
    Shared_Memory × Bool × List OsCall :=
  if n = "" then (m, false, [])
  else if sz = 0 then (m, false, [])
  else
    let m1 := { m with name := n, size := sz }
    match shm with
    | ShmOpenResult.failed => (m1, false, [OsCall.shm_open n])
    | ShmOpenResult.ok fd =>
      if ftruncate_ok then
        let m2 := { m1 with file_mapping := (fd : Int) }
        let mapped := m2.map mm
        let m3 := { mapped.2.1 with address := mapped.1 }
        (m3, mapped.1.isSome,
          [OsCall.shm_open n, OsCall.ftruncate (fd : Int) sz] ++ mapped.2.2)
      else
        (m1, false,
          [OsCall.shm_open n, OsCall.ftruncate (fd : Int) sz,
            OsCall.fd_close (fd : Int), OsCall.shm_unlink n])

/-- `Shared_Memory::close` (POSIX branch): returns at once when
`file_mapping` is -1; otherwise munmaps when `address` is non-null,
closes the descriptor, unlinks the (non-empty) name, and resets every
member to its Unopened value. All OS return values are ignored. -/
def Shared_Memory.close (m : Shared_Memory) : Shared_Memory × List OsCall :=
  if m.file_mapping = -1 then (m, [])
  else
    let unmap := match m.address with
      | some _ => [OsCall.munmap m.size]
      | none => []
    let unlink := if m.name = "" then [] else [OsCall.shm_unlink m.name]
    (Shared_Memory.unopened,
      unmap ++ [OsCall.fd_close m.file_mapping] ++ unlink)

/-- The running success flag computed by the sem_post loop of
`Semaphore::increment` over iterations i, i+1, ..., i+r-1. -/
def all_posts (f : Nat → Bool) : Nat → Nat → Bool
  | _, 0 => true
  | i, r + 1 => f i && all_posts f (i + 1) r

theorem post_run_spec (obj : SemPtr) (f : Nat → Bool) :
    ∀ (r i : Nat) (b : Bool),
      post_run obj f i r b
        = (b && all_posts f i r, List.replicate r (OsCall.sem_post obj)) := by
  intro r
  induction r with
  | zero => intro i b; simp [post_run, all_posts]
  | succ n ih =>
    intro i b
    simp only [post_run, all_posts, ih (i + 1) (b && f i), List.replicate_succ,
      Bool.and_assoc]

theorem all_posts_iff (f : Nat → Bool) :
    ∀ (r i : Nat), all_posts f i r = true ↔ ∀ j, j < r → f (i + j) = true := by
  intro r
  induction r with
  | zero => intro i; simp [all_posts]
  | succ n ih =>
    intro i
    simp only [all_posts, Bool.and_eq_true, ih (i + 1)]
    constructor
    · rintro ⟨h0, hrest⟩ j hj
      match j with
      | 0 => simpa using h0
      | k + 1 =>
        have := hrest k (by omega)
        simpa [Nat.add_comm, Nat.add_assoc, Nat.add_left_comm] using this
    · intro h
      refine ⟨by simpa using h 0 (by omega), fun k hk => ?_⟩
      have := h (k + 1) (by omega)
      simpa [Nat.add_comm, Nat.add_assoc, Nat.add_left_comm] using this

/-- Claim C6: Semaphore::create with an empty name, and
Shared_Memory::create with an empty name or with size 0, always return
failure, issue no OS call, and leave every field of the instance
unchanged. -/
theorem C6_guards :
    (∀ (s : Semaphore) (c : Int) (os : SemOpenResult),
        s.create "" c os = (s, false, [])) ∧
    (∀ (m : Shared_Memory) (sz : Nat) (shm : ShmOpenResult) (ft : Bool)
        (mm : Option Nat), m.create "" sz shm ft mm = (m, false, [])) ∧
    (∀ (m : Shared_Memory) (n : String) (shm : ShmOpenResult) (ft : Bool)
        (mm : Option Nat), m.create n 0 shm ft mm = (m, false, [])) := by
  refine ⟨fun s c os => ?_, fun m sz shm ft mm => ?_, fun m n shm ft mm => ?_⟩
  · simp [Semaphore.create]
  · simp [Shared_Memory.create]
  · unfold Shared_Memory.create
    split
    · rfl
    · simp

/-- Claim C9: on the descriptor-style backend, increment with a count that
is zero or negative, on a semaphore whose handle is non-null, returns
success (true) while issuing no sem_post at all. -/
theorem C9_increment_nonpos (s : Semaphore) (id : Nat) (c : Int)
    (f : Nat → Bool) (hobj : s.object = SemPtr.valid id) (hc : c ≤ 0) :
    s.increment c f = (true, []) := by
  unfold Semaphore.increment
  rw [hobj]
  simp [Int.toNat_of_nonpos hc, post_run]

/-- Witness for C9 at a concrete instance: increment by 0 on an open
semaphore succeeds with an empty OS trace even though every sem_post
would fail. -/
theorem C9_witness :
    Semaphore.increment { name := "a", object := SemPtr.valid 0 } 0
      (fun _ => false) = (true, []) :=
  C9_increment_nonpos _ 0 0 _ rfl (by decide)

/-- Claim C7: on the descriptor-style backend, increment(count) on an open
semaphore issues exactly count single-unit sem_post calls; the sequence
of issued releases is the same whatever the individual outcomes (so units
released before a failure are not revoked, and the remaining releases are
still issued); and the call returns success iff every single-unit release
succeeded. -/
theorem C7_increment_loop (s : Semaphore) (id : Nat) (c : Int)
    (f : Nat → Bool) (hobj : s.object = SemPtr.valid id) (_hc : 0 < c) :
    (s.increment c f).2 = List.replicate c.toNat (OsCall.sem_post s.object) ∧
    (∀ g : Nat → Bool, (s.increment c g).2 = (s.increment c f).2) ∧
    ((s.increment c f).1 = true ↔ ∀ j, j < c.toNat → f j = true) := by
  have hnull : ¬ s.object = SemPtr.null := by rw [hobj]; intro h; cases h
  unfold Semaphore.increment
  simp only [if_neg hnull, post_run_spec]
  refine ⟨trivial, fun g => trivial, ?_⟩
  simp [all_posts_iff]

/-- Witness for C7 at a concrete instance: increment by 2 where the second
sem_post fails still issues both posts and reports failure. -/
theorem C7_witness :
    (Semaphore.increment { name := "a", object := SemPtr.valid 0 } 2
        (fun i => i == 0)).2
      = List.replicate 2 (OsCall.sem_post (SemPtr.valid 0)) ∧
    ((Semaphore.increment { name := "a", object := SemPtr.valid 0 } 2
        (fun i => i == 0)).1 = true
      ↔ ∀ j, j < 2 → (fun i : Nat => i == 0) j = true) := by
  have h := C7_increment_loop { name := "a", object := SemPtr.valid 0 } 0 2
    (fun i => i == 0) rfl (by decide)
  exact ⟨h.1, h.2.2⟩

/-- Claim C10: Shared_Memory::close on an instance whose file_mapping is
the -1 sentinel returns immediately with no OS call and leaves name and
size unchanged even when they are non-empty/non-zero; in particular the
state left by a failed create (stale name and size, file_mapping -1) is
not reset to the full Unopened values by close. -/
theorem C10_close_stale :
    (∀ m : Shared_Memory, m.file_mapping = -1 → m.close = (m, [])) ∧
    (∀ (n : String) (sz : Nat) (ft : Bool) (mm : Option Nat),
       n ≠ "" → sz ≠ 0 →
       ((Shared_Memory.unopened.create n sz ShmOpenResult.failed ft mm).1).close
         = ((Shared_Memory.unopened.create n sz ShmOpenResult.failed ft mm).1,
            []) ∧
       (Shared_Memory.unopened.create n sz ShmOpenResult.failed ft mm).1.name
         = n ∧
       (Shared_Memory.unopened.create n sz ShmOpenResult.failed ft mm).1.size
         = sz) := by
  constructor
  · intro m h
    unfold Shared_Memory.close
    rw [if_pos h]
  · intro n sz ft mm hn hsz
    simp only [Shared_Memory.create, if_neg hn, if_neg hsz]
    exact ⟨by unfold Shared_Memory.close; rfl, trivial, trivial⟩

/-- Witness for C10 at a concrete instance: close on the state left by a
failed create of segment "x" of size 4 is a no-op keeping name "x" and
size 4. -/
theorem C10_witness :
    ((Shared_Memory.unopened.create "x" 4 ShmOpenResult.failed true
        none).1).close
      = ((Shared_Memory.unopened.create "x" 4 ShmOpenResult.failed true
          none).1, []) ∧
    (Shared_Memory.unopened.create "x" 4 ShmOpenResult.failed true
        none).1.name = "x" ∧
    (Shared_Memory.unopened.create "x" 4 ShmOpenResult.failed true
        none).1.size = 4 :=
  C10_close_stale.2 "x" 4 true none (by decide) (by decide)

/-- Claim C4: Semaphore::close on an instance whose handle is null is a
no-op with no OS call; on an Open instance (valid handle, non-empty name)
it issues, in this order, 1024 single-unit releases (the
increment(max_count) drain), then sem_close on the handle, then
sem_unlink on the name, and resets both members, leaving the instance
Unopened for every outcome of the drain posts. -/
theorem C4_close_order :
    (∀ (s : Semaphore) (f : Nat → Bool), s.object = SemPtr.null →
        s.close f = (s, [])) ∧
    (∀ (s : Semaphore) (id : Nat) (f : Nat → Bool),
        s.object = SemPtr.valid id → s.name ≠ "" →
        s.close f = (Semaphore.unopened,
          List.replicate 1024 (OsCall.sem_post s.object)
            ++ [OsCall.sem_close s.object]
            ++ [OsCall.sem_unlink s.name])) := by
  constructor
  · intro s f h
    unfold Semaphore.close
    rw [if_pos h]
  · intro s id f hobj hn
    have hnull : ¬ s.object = SemPtr.null := by rw [hobj]; intro h; cases h
    simp only [Semaphore.close, Semaphore.increment, if_neg hnull,
      if_neg hn, post_run_spec]
    rfl

/-- Witness for C4 at a concrete open semaphore named "a": close drains
with 1024 posts, closes, unlinks and resets, even though every sem_post
fails. -/
theorem C4_witness :
    Semaphore.close { name := "a", object := SemPtr.valid 0 }
        (fun _ => false)
      = (Semaphore.unopened,
         List.replicate 1024 (OsCall.sem_post (SemPtr.valid 0))
           ++ [OsCall.sem_close (SemPtr.valid 0)]
           ++ [OsCall.sem_unlink "a"]) :=
  C4_close_order.2 _ 0 _ rfl (by decide)

/-- Claim C5 counterexample: from the reachable state left by a failed
Shared_Memory::create (name "x", size 4, file_mapping -1), close is a
no-op, so after close the name getter reports "x" and the size getter 4
— not the Unopened sentinels "" and 0 that the claim promises after any
close. -/
theorem C5_counterexample :
    ((Shared_Memory.unopened.create "x" 4 ShmOpenResult.failed true
        none).1).close.1.get_name = "x" ∧
    ((Shared_Memory.unopened.create "x" 4 ShmOpenResult.failed true
        none).1).close.1.get_name ≠ "" ∧
    ((Shared_Memory.unopened.create "x" 4 ShmOpenResult.failed true
        none).1).close.1.get_size = 4 := by
  decide

/-- Claim C5 as amended: for both components close is idempotent from any
state — the state after one close is a fixed point and the second close
issues no OS call — and after closing an instance whose handle was
non-sentinel every getter reports the Unopened sentinel; but after a
close from a state whose handle is already the sentinel (such as the
stale state left by a failed segment create) the name and size getters
keep their old values. -/
theorem C5_close_idempotent :
    (∀ (s : Semaphore) (f g : Nat → Bool),
        ((s.close f).1).close g = ((s.close f).1, [])) ∧
    (∀ m : Shared_Memory, ((m.close).1).close = ((m.close).1, [])) ∧
    (∀ (s : Semaphore) (f : Nat → Bool), s.object ≠ SemPtr.null →
        (s.close f).1 = Semaphore.unopened ∧
        (s.close f).1.get_name = "" ∧
        (s.close f).1.get_object = SemPtr.null) ∧
    (∀ m : Shared_Memory, m.file_mapping ≠ -1 →
        (m.close).1 = Shared_Memory.unopened ∧
        (m.close).1.get_name = "" ∧ (m.close).1.get_size = 0 ∧
        (m.close).1.get_address = none ∧
        (m.close).1.get_file_mapping = -1) := by
  refine ⟨fun s f g => ?_, fun m => ?_, fun s f h => ?_, fun m h => ?_⟩
  · by_cases h : s.object = SemPtr.null
    · simp [Semaphore.close, h]
    · simp [Semaphore.close, h]
  · by_cases h : m.file_mapping = -1
    · simp [Shared_Memory.close, h]
    · simp [Shared_Memory.close, h, Shared_Memory.unopened]
  · simp [Semaphore.close, h, Semaphore.get_name, Semaphore.get_object,
      Semaphore.unopened]
  · simp [Shared_Memory.close, h, Shared_Memory.get_name,
      Shared_Memory.get_size, Shared_Memory.get_address,
      Shared_Memory.get_file_mapping, Shared_Memory.unopened]

/-- Witness for C5 at a concrete open semaphore: after close all getters
report the Unopened sentinels. -/
theorem C5_witness :
    (Semaphore.close { name := "a", object := SemPtr.valid 0 }
        (fun _ => true)).1 = Semaphore.unopened ∧
    (Semaphore.close { name := "a", object := SemPtr.valid 0 }
        (fun _ => true)).1.get_name = "" ∧
    (Semaphore.close { name := "a", object := SemPtr.valid 0 }
        (fun _ => true)).1.get_object = SemPtr.null :=
  C5_close_idempotent.2.2.1 _ (fun _ => true) (by decide)

/-- Claim C1 counterexample: a create whose OS call fails returns failure
but does not leave the instance at the default-constructed values: for
the semaphore the name is set to "x" and the handle to SEM_FAILED; for
the segment the name and size are set to "x" and 4. -/
theorem C1_counterexample :
    (Semaphore.unopened.create "x" 0 SemOpenResult.failed).2.1 = false ∧
    (Semaphore.unopened.create "x" 0 SemOpenResult.failed).1
      ≠ Semaphore.unopened ∧
    (Shared_Memory.unopened.create "x" 4 ShmOpenResult.failed true
        none).2.1 = false ∧
    (Shared_Memory.unopened.create "x" 4 ShmOpenResult.failed true
        none).1 ≠ Shared_Memory.unopened := by
  decide

/-- Claim C1 as amended: a create rejected for an empty name (or zero
size) leaves the instance unchanged with no OS call; but a create that
fails at the OS level leaves the name (and, for the segment, the size)
set to the requested arguments — only the handle and address fields end
at failure/sentinel values, so the instance is not restored to the
default-constructed state. -/
theorem C1_failed_create :
    (∀ (s : Semaphore) (c : Int) (os : SemOpenResult),
        s.create "" c os = (s, false, [])) ∧
    (∀ (s : Semaphore) (n : String) (c : Int), n ≠ "" →
        s.create n c SemOpenResult.failed
          = ({ name := n, object := SemPtr.semFailed }, false,
             [OsCall.sem_open n c])) ∧
    (∀ (m : Shared_Memory) (n : String) (sz : Nat) (ft : Bool)
        (mm : Option Nat), n ≠ "" → sz ≠ 0 →
        m.create n sz ShmOpenResult.failed ft mm
          = ({ m with name := n, size := sz }, false, [OsCall.shm_open n])) ∧
    (∀ (m : Shared_Memory) (n : String) (sz : Nat) (fd : Nat)
        (mm : Option Nat), n ≠ "" → sz ≠ 0 →
        m.create n sz (ShmOpenResult.ok fd) false mm
          = ({ m with name := n, size := sz }, false,
             [OsCall.shm_open n, OsCall.ftruncate (fd : Int) sz,
              OsCall.fd_close (fd : Int), OsCall.shm_unlink n])) ∧
    (∀ (m : Shared_Memory) (n : String) (sz : Nat) (fd : Nat),
        n ≠ "" → sz ≠ 0 →
        m.create n sz (ShmOpenResult.ok fd) true none
          = ({ name := n, size := sz, address := none, file_mapping := -1 },
             false,
             [OsCall.shm_open n, OsCall.ftruncate (fd : Int) sz,
              OsCall.mmap (fd : Int) sz, OsCall.fd_close (fd : Int)])) := by
  refine ⟨fun s c os => by simp [Semaphore.create],
    fun s n c hn => ?_, fun m n sz ft mm hn hsz => ?_,
    fun m n sz fd mm hn hsz => ?_, fun m n sz fd hn hsz => ?_⟩
  · simp [Semaphore.create, hn]
  · simp [Shared_Memory.create, hn, hsz]
  · simp [Shared_Memory.create, hn, hsz]
  · have hfd : ((fd : Int)) ≠ -1 := by omega
    simp [Shared_Memory.create, Shared_Memory.map, hn, hsz, hfd]

/-- Witness for C1 at a concrete input: create("x") whose sem_open fails
leaves name "x" and object SEM_FAILED. -/
theorem C1_witness :
    Semaphore.unopened.create "x" 0 SemOpenResult.failed
      = ({ name := "x", object := SemPtr.semFailed }, false,
         [OsCall.sem_open "x" 0]) :=
  C1_failed_create.2.1 Semaphore.unopened "x" 0 (by decide)

/-- States of a Semaphore reachable from the default-constructed state by
any sequence of create, wait, increment and close calls, with arbitrary
OS outcomes. wait and increment are const methods that never modify the
two data members, so a step for them would map a state to itself and is
omitted. -/
inductive SemReachAny : Semaphore → Prop where
  | init : SemReachAny Semaphore.unopened
  | create (s : Semaphore) (n : String) (c : Int) (os : SemOpenResult) :
      SemReachAny s → SemReachAny (s.create n c os).1
  | close (s : Semaphore) (f : Nat → Bool) :
      SemReachAny s → SemReachAny (s.close f).1

/-- States of a Semaphore reachable when no create fails at the OS level:
every create step either carries a successful sem_open outcome or is
rejected up front for an empty name (no OS call, outcome irrelevant). -/
inductive SemReachOk : Semaphore → Prop where
  | init : SemReachOk Semaphore.unopened
  | create_ok (s : Semaphore) (n : String) (c : Int) (id : Nat) :
      SemReachOk s → SemReachOk (s.create n c (SemOpenResult.ok id)).1
  | create_rejected (s : Semaphore) (c : Int) (os : SemOpenResult) :
      SemReachOk s → SemReachOk (s.create "" c os).1
  | close (s : Semaphore) (f : Nat → Bool) :
      SemReachOk s → SemReachOk (s.close f).1

/-- The data-model invariant claimed for the Semaphore: the handle is a
valid (non-sentinel) object pointer iff the name is non-empty. -/
def sem_invariant (s : Semaphore) : Prop :=
  s.object.isValid = true ↔ s.name ≠ ""

/-- Claim C2 counterexample: the state reached from the default
constructor by the single call create("x") whose sem_open fails is
externally observable, yet its name is non-empty while its handle
(SEM_FAILED) is not a valid object pointer — the claimed invariant fails
there. -/
theorem C2_counterexample :
    SemReachAny (Semaphore.unopened.create "x" 0 SemOpenResult.failed).1 ∧
    ¬ sem_invariant (Semaphore.unopened.create "x" 0 SemOpenResult.failed).1 :=
  ⟨SemReachAny.create _ _ _ _ SemReachAny.init,
    by unfold sem_invariant; decide⟩

/-- Claim C2 as amended: the invariant "handle valid iff name non-empty"
holds in every state reachable by create, wait, increment and close as
long as no create fails at the OS level; an OS-failing create is exactly
the step that breaks it, updating name without a matching valid handle. -/
theorem C2_invariant (s : Semaphore) (h : SemReachOk s) : sem_invariant s := by
  induction h with
  | init => unfold sem_invariant; decide
  | create_ok s n c id _ ih =>
    by_cases hn : n = ""
    · simpa [Semaphore.create, hn] using ih
    · simp [Semaphore.create, hn, sem_invariant, SemPtr.isValid]
  | create_rejected s c os _ ih =>
    simpa [Semaphore.create] using ih
  | close s f _ ih =>
    by_cases hobj : s.object = SemPtr.null
    · simpa [Semaphore.close, hobj] using ih
    · simp [Semaphore.close, hobj, sem_invariant, SemPtr.isValid]

/-- Witness for C2 at a concrete reachable state: after a successful
create of "a" the invariant holds. -/
theorem C2_witness :
    sem_invariant (Semaphore.unopened.create "a" 0 (SemOpenResult.ok 5)).1 :=
  C2_invariant _ (SemReachOk.create_ok _ _ _ _ SemReachOk.init)

/-- Claim C3 counterexample: when mmap fails inside create, the call
returns failure with the descriptor closed (file_mapping -1) and address
null, but the resulting state is not fully Unopened: name and size keep
the requested values "x" and 4. -/
theorem C3_counterexample :
    (Shared_Memory.unopened.create "x" 4 (ShmOpenResult.ok 3) true
        none).2.1 = false ∧
    (Shared_Memory.unopened.create "x" 4 (ShmOpenResult.ok 3) true
        none).1.file_mapping = -1 ∧
    (Shared_Memory.unopened.create "x" 4 (ShmOpenResult.ok 3) true
        none).1.address = none ∧
    (Shared_Memory.unopened.create "x" 4 (ShmOpenResult.ok 3) true
        none).1 ≠ Shared_Memory.unopened := by
  decide

/-- Claim C3 as amended: when the internal map step fails it does close
the backing descriptor as a side effect and resets file_mapping to the
-1 sentinel, and a create that fails at the map step ends with handle
and address at their sentinels — but name and size keep the requested
values, so the caller-visible state is not fully Unopened. -/
theorem C3_map_failure :
    (∀ (m : Shared_Memory) (fd : Nat),
        m.file_mapping = (fd : Int) → m.size ≠ 0 →
        m.map none = (none, { m with file_mapping := -1 },
          [OsCall.mmap (fd : Int) m.size, OsCall.fd_close (fd : Int)])) ∧
    (∀ (m : Shared_Memory) (n : String) (sz : Nat) (fd : Nat),
        n ≠ "" → sz ≠ 0 →
        m.create n sz (ShmOpenResult.ok fd) true none
          = ({ name := n, size := sz, address := none, file_mapping := -1 },
             false,
             [OsCall.shm_open n, OsCall.ftruncate (fd : Int) sz,
              OsCall.mmap (fd : Int) sz, OsCall.fd_close (fd : Int)])) := by
  constructor
  · intro m fd hfd hsz
    have hne : m.file_mapping ≠ -1 := by rw [hfd]; omega
    simp [Shared_Memory.map, hne, hsz, hfd]
  · intro m n sz fd hn hsz
    have hfd : ((fd : Int)) ≠ -1 := by omega
    simp [Shared_Memory.create, Shared_Memory.map, hn, hsz, hfd]

/-- Witness for C3 at a concrete input: create("x", 4) on descriptor 3
with mmap failing returns failure, closing descriptor 3 and leaving
name "x", size 4, address null, file_mapping -1. -/
theorem C3_witness :
    Shared_Memory.unopened.create "x" 4 (ShmOpenResult.ok 3) true none
      = ({ name := "x", size := 4, address := none, file_mapping := -1 },
         false,
         [OsCall.shm_open "x", OsCall.ftruncate 3 4,
          OsCall.mmap 3 4, OsCall.fd_close 3]) :=
  C3_map_failure.2 Shared_Memory.unopened "x" 4 3 (by decide) (by decide)

/-- Claim C8: on the descriptor-style backend, wait with a finite timeout
on an open semaphore calls sem_timedwait with the absolute deadline
now + timeout_ms: the deadline equals the clock reading plus exactly
timeout_ms milliseconds (in total nanoseconds), its tv_nsec is
normalized into [0, 10^9), the intermediate nanosecond sum stays below
2^31 (no overflow even with a 32-bit long), and tv_sec grows by at most
4294968 (no 64-bit overflow for any realistic clock value). -/
theorem C8_deadline (s : Semaphore) (id : Nat) (t : Nat) (now : Timespec)
    (r : Bool) (hobj : s.object = SemPtr.valid id) (ht : t ≠ INFINITE)
    (ht32 : t < 4294967296) (h0 : 0 ≤ now.tv_nsec)
    (h9 : now.tv_nsec < 1000000000) :
    (s.wait t now r).2
      = [OsCall.sem_timedwait s.object (wait_deadline now t)] ∧
    (wait_deadline now t).tv_sec * 1000000000 + (wait_deadline now t).tv_nsec
      = now.tv_sec * 1000000000 + now.tv_nsec + (t : Int) * 1000000 ∧
    0 ≤ (wait_deadline now t).tv_nsec ∧
    (wait_deadline now t).tv_nsec < 1000000000 ∧
    now.tv_nsec + (((t % 1000) * 1000000 : Nat) : Int) < 2147483648 ∧
    (wait_deadline now t).tv_sec ≤ now.tv_sec + 4294968 := by
  have hnull : ¬ s.object = SemPtr.null := by rw [hobj]; intro h; cases h
  refine ⟨?_, ?_⟩
  · unfold Semaphore.wait
    rw [if_neg hnull, if_neg ht]
  · unfold wait_deadline
    simp only []
    split <;> dsimp only <;>
      refine ⟨by omega, by omega, by omega, by omega, by omega⟩

/-- Witness for C8 at a concrete input: timeout 1500 ms from clock reading
(100 s, 999999999 ns) issues sem_timedwait with the computed deadline. -/
theorem C8_witness :
    (Semaphore.wait { name := "a", object := SemPtr.valid 0 } 1500
        { tv_sec := 100, tv_nsec := 999999999 } true).2
      = [OsCall.sem_timedwait (SemPtr.valid 0)
          (wait_deadline { tv_sec := 100, tv_nsec := 999999999 } 1500)] :=
  (C8_deadline _ 0 1500 _ true rfl (by decide) (by decide) (by decide)
    (by decide)).1

end Sasm
